import Mathlib

/-!
Shallow embedding of the rust-snake game core (src/main.rs) and verification
of its specified behaviour.  Rendering (the `Output` sink, `Rectangle.render`,
`menu`, `tick`, `game_over`) only writes terminal escape sequences and never
touches game state, so it is omitted from the state model; everything that
reads or writes game state is embedded faithfully below.

Conventions of the embedding:
  * `u16` coordinates are modelled as `Nat`; the two arithmetic operations the
    code performs on them (`x - 1`, `x + 1`) are guarded so that an operation
    that would underflow below 0 or overflow past 65535 on `u16` yields `none`
    (Rust panics on debug overflow, and either behaviour is a failure of the
    `u16` arithmetic).  `Vec` indexing / `unwrap` on an empty body also yields
    `none`.
  * The random number generator of `place_new_food` is modelled by passing the
    candidate cell it draws explicitly; the retry loop of the source is given
    explicit fuel, so that its non-termination is expressible as `none` for
    every fuel.
  * Input is modelled by passing the decoded `Action` to `process_keypress`.
-/

namespace RustSnake

/-- A cell coordinate pair, mirroring `struct Point { x: u16, y: u16 }`. -/
structure Point where
  x : Nat
  y : Nat
deriving DecidableEq

/-- Mirrors `enum Direction { Right, Left, Up, Down }`. -/
inductive Direction where
  | Right
  | Left
  | Up
  | Down
deriving DecidableEq

/-- Mirrors `enum GameState { Menu, Play, GameOver }`. -/
inductive GameState where
  | Menu
  | Play
  | GameOver
deriving DecidableEq

/-- Mirrors `enum Action` produced by the input reader. -/
inductive Action where
  | Tick
  | Quit
  | StartGame
  | Restart
  | MoveUp
  | MoveDown
  | MoveLeft
  | MoveRight
deriving DecidableEq

/-- Mirrors `struct Rectangle { top_left: (u16, u16), bottom_right: (u16, u16) }`. -/
structure Rectangle where
  top_left : Nat × Nat
  bottom_right : Nat × Nat
deriving DecidableEq

/-- Mirrors `struct Snake { body: Vec<Point>, direction: Direction, grow: bool }`. -/
structure Snake where
  body : List Point
  direction : Direction
  grow : Bool
deriving DecidableEq

/-- Mirrors `Snake::new()`: the fixed 13-cell horizontal body facing Left. -/
def Snake.new : Snake where
  direction := Direction.Left
  grow := false
  body :=
    [⟨60, 50⟩, ⟨61, 50⟩, ⟨62, 50⟩, ⟨63, 50⟩, ⟨64, 50⟩, ⟨65, 50⟩, ⟨66, 50⟩,
     ⟨67, 50⟩, ⟨68, 50⟩, ⟨69, 50⟩, ⟨70, 50⟩, ⟨71, 50⟩, ⟨72, 50⟩]

/-- Mirrors `Snake::grow(&mut self)`, which sets the pending-growth flag.
Named `grow_mark` because the Rust method shares its name with the field. -/
def Snake.grow_mark (s : Snake) : Snake := { s with grow := true }

/-- Mirrors `Snake::move_left`: prepend `(head.x - 1, head.y)`, then pop the
tail unless the pending-growth flag is set (in which case clear the flag).
`none` when the body is empty (`unwrap` panics) or `head.x - 1` underflows. -/
def Snake.move_left (s : Snake) : Option Snake := do
  let head ← s.body.head?
  if head.x = 0 then none
  else
    let b := Point.mk (head.x - 1) head.y :: s.body
    if s.grow = false then some { s with body := b.dropLast }
    else some { s with body := b, grow := false }

/-- Mirrors `Snake::move_right`: prepend `(head.x + 1, head.y)`; `none` on an
empty body or when `head.x + 1` overflows `u16`. -/
def Snake.move_right (s : Snake) : Option Snake := do
  let head ← s.body.head?
  if head.x = 65535 then none
  else
    let b := Point.mk (head.x + 1) head.y :: s.body
    if s.grow = false then some { s with body := b.dropLast }
    else some { s with body := b, grow := false }

/-- Mirrors `Snake::move_up`: prepend `(head.x, head.y - 1)`; `none` on an
empty body or when `head.y - 1` underflows. -/
def Snake.move_up (s : Snake) : Option Snake := do
  let head ← s.body.head?
  if head.y = 0 then none
  else
    let b := Point.mk head.x (head.y - 1) :: s.body
    if s.grow = false then some { s with body := b.dropLast }
    else some { s with body := b, grow := false }

/-- Mirrors `Snake::move_down`: prepend `(head.x, head.y + 1)`; `none` on an
empty body or when `head.y + 1` overflows `u16`. -/
def Snake.move_down (s : Snake) : Option Snake := do
  let head ← s.body.head?
  if head.y = 65535 then none
  else
    let b := Point.mk head.x (head.y + 1) :: s.body
    if s.grow = false then some { s with body := b.dropLast }
    else some { s with body := b, grow := false }

/-- Mirrors `Snake::slither`: dispatch on the current direction. -/
def Snake.slither (s : Snake) : Option Snake :=
  match s.direction with
  | Direction.Up => s.move_up
  | Direction.Down => s.move_down
  | Direction.Left => s.move_left
  | Direction.Right => s.move_right

/-- Mirrors `struct Game` minus the pure-output fields (`output`, `reader`). -/
structure Game where
  frame : Rectangle
  snake : Snake
  score : Nat
  state : GameState
  food : Point
deriving DecidableEq

/-- Mirrors `Game::new()`. -/
def Game.new : Game where
  frame := { top_left := (30, 30), bottom_right := (100, 60) }
  snake := Snake.new
  score := 0
  state := GameState.Menu
  food := ⟨40, 45⟩

/-- The body scan of `check_collisions`: the `for point_idx in 1..len-1` loop
comparing the head against body cells at indices `1` through `len - 2`. -/
def selfCollision (head : Point) (body : List Point) : Bool :=
  (List.range' 1 (body.length - 2)).any fun i =>
    match body.get? i with
    | some p => p.x == head.x && p.y == head.y
    | none => false

/-- Mirrors `Game::check_collisions`: sets `state := GameOver` when the head
touches or crosses a wall (`x ≤ left`, `x ≥ right`, `y ≤ top`, `y ≥ bottom`)
or coincides with a body cell at an index in `1..len-1` (exclusive top).
`none` when the body is empty (`body[0]` panics). -/
def Game.check_collisions (g : Game) : Option Game := do
  let head ← g.snake.body.head?
  let wall : Bool :=
    decide (head.x ≤ g.frame.top_left.1) || decide (g.frame.bottom_right.1 ≤ head.x) ||
    decide (head.y ≤ g.frame.top_left.2) || decide (g.frame.bottom_right.2 ≤ head.y)
  if wall || selfCollision head g.snake.body then
    some { g with state := GameState.GameOver }
  else
    some g

/-- The retry loop of `Game::place_new_food`, with explicit fuel.  Note the
candidate is drawn ONCE, before the loop, so every iteration re-checks the
same cell: the loop body never changes any state.  `none` means the fuel ran
out, i.e. the loop is still spinning. -/
def placeFoodLoop (body : List Point) (cand : Point) : Nat → Option Point
  | 0 => none
  | fuel + 1 =>
    if body.any (fun p => p.x == cand.x && p.y == cand.y) then
      placeFoodLoop body cand fuel
    else
      some cand

/-- Mirrors `Game::place_new_food`, parameterised by the candidate cell the
RNG draws (`gen_range(left+1..right-1)` by `gen_range(top+1..bottom-1)`) and
by fuel for the retry loop. -/
def Game.place_new_food (g : Game) (cand : Point) (fuel : Nat) : Option Point :=
  placeFoodLoop g.snake.body cand fuel

/-- Mirrors `Game::feed_snake`: when `body[0] == food`, relocate the food, set
the pending-growth flag and increment the score; otherwise do nothing. -/
def Game.feed_snake (g : Game) (cand : Point) (fuel : Nat) : Option Game := do
  let head ← g.snake.body.head?
  if head = g.food then
    let f ← g.place_new_food cand fuel
    some { g with food := f, snake := g.snake.grow_mark, score := g.score + 1 }
  else
    some g

/-- Mirrors `Game::process_keypress`, taking the decoded action as input and
returning the updated game and the continue flag (`false` means quit). -/
def Game.process_keypress (g : Game) (a : Action) : Game × Bool :=
  match a with
  | Action.Quit => (g, false)
  | Action.StartGame =>
    (if g.state = GameState.Menu then { g with state := GameState.Play } else g, true)
  | Action.Restart =>
    (if g.state = GameState.GameOver then
      { g with snake := Snake.new, state := GameState.Play }
    else g, true)
  | Action.MoveUp =>
    (if g.snake.direction = Direction.Right ∨ g.snake.direction = Direction.Left then
      { g with snake := { g.snake with direction := Direction.Up } }
    else g, true)
  | Action.MoveDown =>
    (if g.snake.direction = Direction.Right ∨ g.snake.direction = Direction.Left then
      { g with snake := { g.snake with direction := Direction.Down } }
    else g, true)
  | Action.MoveLeft =>
    (if g.snake.direction = Direction.Up ∨ g.snake.direction = Direction.Down then
      { g with snake := { g.snake with direction := Direction.Left } }
    else g, true)
  | Action.MoveRight =>
    (if g.snake.direction = Direction.Up ∨ g.snake.direction = Direction.Down then
      { g with snake := { g.snake with direction := Direction.Right } }
    else g, true)
  | Action.Tick => (g, true)

/-- Mirrors the state-relevant part of `Game::run`: slither, then collision
check, then feeding, then (after the state dispatch, which only renders) the
keypress.  The rendering dispatch on `state` writes no game state, so it
contributes nothing here. -/
def Game.run (g : Game) (a : Action) (cand : Point) (fuel : Nat) :
    Option (Game × Bool) := do
  let s ← g.snake.slither
  let g1 := { g with snake := s }
  let g2 ← g1.check_collisions
  let g3 ← g2.feed_snake cand fuel
  some (g3.process_keypress a)

/-- Iterates the main loop on timeout-only input (`Action.Tick`), mirroring
`while game.run()? {}` when no key is pressed.  The food candidate is unused
on such runs (the head row never meets the food row). -/
def runTicks : Nat → Game → Option Game
  | 0, g => some g
  | n + 1, g => do
    let r ← g.run Action.Tick ⟨0, 0⟩ 1
    runTicks n r.1

/-- Horizontal axis test for a direction, used to state the orthogonality
rule for turns. -/
def Direction.horizontal : Direction → Bool
  | Direction.Left => true
  | Direction.Right => true
  | Direction.Up => false
  | Direction.Down => false

/-- Two directions are orthogonal when they lie on different axes. -/
def orthogonal (req cur : Direction) : Bool :=
  req.horizontal != cur.horizontal

/-- The movement action requesting a given direction. -/
def moveAction : Direction → Action
  | Direction.Up => Action.MoveUp
  | Direction.Down => Action.MoveDown
  | Direction.Left => Action.MoveLeft
  | Direction.Right => Action.MoveRight

/-- The one-cell offset of a head along a direction (Up: y−1, Down: y+1,
Left: x−1, Right: x+1); under the no-wrap hypotheses this is exactly the
`u16` arithmetic the moves perform. -/
def offsetPoint (p : Point) : Direction → Point
  | Direction.Up => ⟨p.x, p.y - 1⟩
  | Direction.Down => ⟨p.x, p.y + 1⟩
  | Direction.Left => ⟨p.x - 1, p.y⟩
  | Direction.Right => ⟨p.x + 1, p.y⟩

/-- The fresh game sitting on the game-over screen, a concrete reachable
shape of state used in several concrete checks. -/
def gameAtGameOver : Game := { Game.new with state := GameState.GameOver }

/-- A game whose snake head sits exactly on the left wall of the arena
`(30,30)-(100,60)`, as in the boundary scenario of the spec. -/
def gameWallHit : Game :=
  { Game.new with snake := { Snake.new with body := [⟨30, 50⟩, ⟨31, 50⟩] } }

/-- A game whose snake head coincides with body index 2 of a 4-cell body,
strictly inside the arena. -/
def gameSelfHit : Game :=
  { Game.new with snake :=
      { Snake.new with body := [⟨50, 50⟩, ⟨51, 50⟩, ⟨50, 50⟩, ⟨49, 50⟩] } }

/-- A game whose snake head sits exactly on the food cell `(40,45)`. -/
def gameOnFood : Game :=
  { Game.new with snake := { Snake.new with body := [⟨40, 45⟩, ⟨41, 45⟩] } }

/-- Membership reading of the occupancy test used by both the food retry
loop and the feeding check. -/
theorem occupied_any_iff (body : List Point) (cand : Point) :
    (body.any fun p => p.x == cand.x && p.y == cand.y) = true ↔ cand ∈ body := by
  rw [List.any_eq_true]
  constructor
  · rintro ⟨p, hp, hpe⟩
    simp only [Bool.and_eq_true, beq_iff_eq] at hpe
    obtain ⟨px, py⟩ := p
    obtain ⟨cx, cy⟩ := cand
    simp_all
  · intro h
    exact ⟨cand, h, by simp⟩

/-- Index reading of the self-collision scan: it fires exactly on a body
cell equal to the head at an index between 1 and length − 2 inclusive. -/
theorem selfCollision_iff (head : Point) (body : List Point) :
    selfCollision head body = true ↔
      ∃ i, 1 ≤ i ∧ i ≤ body.length - 2 ∧ body.get? i = some head := by
  unfold selfCollision
  rw [List.any_eq_true]
  constructor
  · rintro ⟨i, hi, hp⟩
    rw [List.mem_range'_1] at hi
    refine ⟨i, hi.1, by omega, ?_⟩
    cases hq : body.get? i with
    | none => rw [hq] at hp; simp at hp
    | some p =>
      rw [hq] at hp
      have hp2 : (p.x == head.x && p.y == head.y) = true := hp
      simp only [Bool.and_eq_true, beq_iff_eq] at hp2
      obtain ⟨hx, hy⟩ := hp2
      cases p
      cases head
      simp_all
  · rintro ⟨i, hge, hle, hget⟩
    refine ⟨i, ?_, ?_⟩
    · rw [List.mem_range'_1]
      exact ⟨hge, by omega⟩
    · rw [hget]
      simp

/-- Collision evaluation on an empty body fails (the `body[0]` access). -/
theorem check_collisions_none (g : Game) (hh : g.snake.body.head? = none) :
    g.check_collisions = none := by
  unfold Game.check_collisions
  rw [hh]
  rfl

/-- Closed form of `check_collisions` once the head is known. -/
theorem check_collisions_eq (g : Game) (head : Point)
    (hh : g.snake.body.head? = some head) :
    g.check_collisions =
      (if (decide (head.x ≤ g.frame.top_left.1) ||
          decide (g.frame.bottom_right.1 ≤ head.x) ||
          decide (head.y ≤ g.frame.top_left.2) ||
          decide (g.frame.bottom_right.2 ≤ head.y) ||
          selfCollision head g.snake.body) = true then
        some { g with state := GameState.GameOver } else some g) := by
  unfold Game.check_collisions
  rw [hh]
  rfl

/-- Collision evaluation can only write the `state` field: score, snake and
food pass through untouched. -/
theorem check_collisions_only_state (g g2 : Game)
    (h : g.check_collisions = some g2) :
    g2.score = g.score ∧ g2.snake = g.snake ∧ g2.food = g.food := by
  cases hh : g.snake.body.head? with
  | none =>
    rw [check_collisions_none g hh] at h
    exact Option.noConfusion h
  | some head =>
    rw [check_collisions_eq g head hh] at h
    split at h <;> (injection h with h2; subst h2; exact ⟨rfl, rfl, rfl⟩)

/-- Feeding on an empty body fails (the `body[0]` access). -/
theorem feed_snake_none (g : Game) (hh : g.snake.body.head? = none)
    (cand : Point) (fuel : Nat) : g.feed_snake cand fuel = none := by
  unfold Game.feed_snake
  rw [hh]
  rfl

/-- A successful feeding step leaves the score unchanged or adds exactly 1. -/
theorem feed_snake_score (g : Game) (cand : Point) (fuel : Nat) (g2 : Game)
    (h : g.feed_snake cand fuel = some g2) :
    g2.score = g.score ∨ g2.score = g.score + 1 := by
  cases hh : g.snake.body.head? with
  | none =>
    rw [feed_snake_none g hh cand fuel] at h
    exact Option.noConfusion h
  | some head =>
    unfold Game.feed_snake at h
    rw [hh] at h
    have h2 : (if head = g.food then
        (g.place_new_food cand fuel).bind fun f =>
          some { g with
                  food := f,
                  snake := g.snake.grow_mark,
                  score := g.score + 1 }
      else some g) = some g2 := h
    split at h2
    · cases hp : g.place_new_food cand fuel with
      | none =>
        rw [hp] at h2
        exact Option.noConfusion h2
      | some f =>
        rw [hp] at h2
        have h3 : some ({ g with
            food := f,
            snake := g.snake.grow_mark,
            score := g.score + 1 } : Game) = some g2 := h2
        injection h3 with h4
        subst h4
        exact Or.inr rfl
    · injection h2 with h4
      subst h4
      exact Or.inl rfl

/-- No keypress branch ever writes the score. -/
theorem process_keypress_score (g : Game) (a : Action) :
    (g.process_keypress a).1.score = g.score := by
  cases a <;> simp only [Game.process_keypress] <;>
    first
    | rfl
    | (split <;> rfl)

/-- Advancing with the pending-growth flag forced on yields a body exactly
one longer than the current one, and is defined exactly when the ordinary
advance is (the flag does not influence the head arithmetic guards). -/
theorem slither_grow_true_length (s : Snake) :
    (({ s with grow := true } : Snake).slither).map (fun t => t.body.length) =
      s.slither.map (fun _ => s.body.length + 1) := by
  obtain ⟨body, dir, gr⟩ := s
  cases body with
  | nil => cases dir <;> rfl
  | cons b t =>
    cases dir <;> cases gr <;>
      simp [Snake.slither, Snake.move_left, Snake.move_right, Snake.move_up,
        Snake.move_down, Option.some_bind, List.length_dropLast] <;>
      split <;>
      simp [List.length_dropLast]

/-- When the single drawn candidate is free of the body, the retry loop does
return it on any positive fuel: a terminating `place_new_food` call returns
its candidate, hence a cell not on the body. -/
theorem place_new_food_free_candidate (g : Game) (cand : Point) (fuel : Nat)
    (hcand : cand ∉ g.snake.body) (hfuel : 0 < fuel) :
    g.place_new_food cand fuel = some cand := by
  have hanyf : (g.snake.body.any fun p => p.x == cand.x && p.y == cand.y) = false := by
    cases hq : (g.snake.body.any fun p => p.x == cand.x && p.y == cand.y) with
    | false => rfl
    | true => exact absurd ((occupied_any_iff g.snake.body cand).mp hq) hcand
  cases fuel with
  | zero => exact absurd hfuel (Nat.lt_irrefl 0)
  | succ n => simp [Game.place_new_food, placeFoodLoop, hanyf]

/-- C1: the spec claims `place_new_food` terminates whenever a free interior
cell exists, retrying fresh candidates.  The code draws its candidate once,
before the loop, and the loop re-checks that same cell forever; with the
initial snake (which certainly leaves free interior cells) and candidate
`(60,50)` — an occupied cell — the loop never terminates: for every fuel it
is still spinning. -/
theorem c1_place_new_food_spins_forever (fuel : Nat) :
    Game.new.place_new_food ⟨60, 50⟩ fuel = none := by
  induction fuel with
  | zero => rfl
  | succ n ih =>
    simp only [Game.place_new_food, placeFoodLoop] at ih ⊢
    rw [if_pos (by decide)]
    exact ih

/-- C2 counterexample: in the GameOver state a movement action is NOT a
no-op — from direction Left, MoveUp changes the snake direction to Up. -/
theorem c2_gameover_move_changes_direction :
    gameAtGameOver.state = GameState.GameOver ∧
    gameAtGameOver.snake.direction = Direction.Left ∧
    (gameAtGameOver.process_keypress Action.MoveUp).1.snake.direction =
      Direction.Up := by
  decide

/-- C2 amended: in the GameOver state a movement action leaves every
component unchanged except the snake direction, which is updated exactly as
in Play: set to the requested direction when orthogonal to the current one,
unchanged otherwise. -/
theorem c2_gameover_move_only_turns (g : Game)
    (h : g.state = GameState.GameOver) (d : Direction) :
    g.process_keypress (moveAction d) =
      ({ g with snake := { g.snake with direction :=
          (if orthogonal d g.snake.direction then d else g.snake.direction) } },
       true) := by
  obtain ⟨fr, ⟨body, dir, gr⟩, sc, st, fd⟩ := g
  cases d <;> cases dir <;>
    simp [Game.process_keypress, moveAction, orthogonal, Direction.horizontal]

/-- C2 amended, witnessed at the concrete game-over state with MoveUp. -/
theorem c2_gameover_move_only_turns_witness :
    gameAtGameOver.process_keypress (moveAction Direction.Up) =
      ({ gameAtGameOver with snake := { gameAtGameOver.snake with direction :=
          (if orthogonal Direction.Up gameAtGameOver.snake.direction
           then Direction.Up else gameAtGameOver.snake.direction) } },
       true) :=
  c2_gameover_move_only_turns gameAtGameOver rfl Direction.Up

/-- C3: with the head strictly inside the walls and the game not already
over, collision evaluation yields GameOver exactly when the head coincides
with a body cell at an index between 1 and length − 2 inclusive; equality
with the cell at the last index (length − 1) alone never triggers it. -/
theorem c3_self_collision_window (g : Game) (head : Point)
    (hh : g.snake.body.head? = some head)
    (hstate : g.state ≠ GameState.GameOver)
    (h1 : g.frame.top_left.1 < head.x) (h2 : head.x < g.frame.bottom_right.1)
    (h3 : g.frame.top_left.2 < head.y) (h4 : head.y < g.frame.bottom_right.2) :
    (g.check_collisions.map Game.state = some GameState.GameOver ↔
      ∃ i, 1 ≤ i ∧ i ≤ g.snake.body.length - 2 ∧
        g.snake.body.get? i = some head) := by
  have hwb : (decide (head.x ≤ g.frame.top_left.1) ||
      decide (g.frame.bottom_right.1 ≤ head.x) ||
      decide (head.y ≤ g.frame.top_left.2) ||
      decide (g.frame.bottom_right.2 ≤ head.y)) = false := by
    simp only [Bool.or_eq_false_iff, decide_eq_false_iff_not, not_le]
    exact ⟨⟨⟨h1, h2⟩, h3⟩, h4⟩
  rw [← selfCollision_iff, check_collisions_eq g head hh, hwb]
  simp only [Bool.false_or]
  cases hsc : selfCollision head g.snake.body with
  | true => simp
  | false => simp [hstate]

/-- C3, witnessed on a 4-cell body whose head equals body cell 2: collision
evaluation reports GameOver. -/
theorem c3_self_collision_window_witness :
    gameSelfHit.check_collisions.map Game.state = some GameState.GameOver :=
  (c3_self_collision_window gameSelfHit ⟨50, 50⟩ rfl (by decide) (by decide)
      (by decide) (by decide) (by decide)).mpr ⟨2, by decide, by decide, by decide⟩

/-- C4: whenever the head touches or crosses a wall (x ≤ left, x ≥ right,
y ≤ top or y ≥ bottom — boundaries inclusive), collision evaluation sets the
state to GameOver. -/
theorem c4_wall_collision (g : Game) (head : Point)
    (hh : g.snake.body.head? = some head)
    (hwall : head.x ≤ g.frame.top_left.1 ∨ g.frame.bottom_right.1 ≤ head.x ∨
             head.y ≤ g.frame.top_left.2 ∨ g.frame.bottom_right.2 ≤ head.y) :
    g.check_collisions = some { g with state := GameState.GameOver } := by
  have hwb : (decide (head.x ≤ g.frame.top_left.1) ||
      decide (g.frame.bottom_right.1 ≤ head.x) ||
      decide (head.y ≤ g.frame.top_left.2) ||
      decide (g.frame.bottom_right.2 ≤ head.y)) = true := by
    rcases hwall with h | h | h | h <;> simp [h]
  rw [check_collisions_eq g head hh, hwb]
  simp

/-- C4, witnessed at arena `(30,30)-(100,60)` with head `(30,50)`: a head
on the left boundary yields GameOver. -/
theorem c4_wall_collision_witness :
    gameWallHit.check_collisions =
      some { gameWallHit with state := GameState.GameOver } :=
  c4_wall_collision gameWallHit ⟨30, 50⟩ rfl (Or.inl (by decide))

/-- C5: when the head sits on the food and the drawn candidate cell is free,
feeding adds exactly 1 to the score, moves the food to that free cell (not on
the body), sets the pending-growth flag and leaves the body itself alone;
when the head is not on the food nothing changes; and the growth takes
effect on the next advance, whose body is exactly one cell longer than the
current body. -/
theorem c5_feed (g : Game) (head : Point) (hh : g.snake.body.head? = some head)
    (cand : Point) (fuel : Nat) (hcand : cand ∉ g.snake.body) (hfuel : 0 < fuel) :
    (head = g.food →
      g.feed_snake cand fuel =
        some { g with
                food := cand,
                snake := { g.snake with grow := true },
                score := g.score + 1 } ∧
      cand ∉ g.snake.body) ∧
    (head ≠ g.food → g.feed_snake cand fuel = some g) ∧
    (head = g.food →
      ((g.feed_snake cand fuel).bind (fun g2 => g2.snake.slither)).map
          (fun t => t.body.length) =
        g.snake.slither.map (fun _ => g.snake.body.length + 1)) := by
  have hplace := place_new_food_free_candidate g cand fuel hcand hfuel
  have hfeed : head = g.food →
      g.feed_snake cand fuel =
        some { g with
                food := cand,
                snake := { g.snake with grow := true },
                score := g.score + 1 } := by
    intro hfood
    unfold Game.feed_snake
    rw [hh]
    show (if head = g.food then
        (g.place_new_food cand fuel).bind fun f =>
          some { g with
                  food := f,
                  snake := g.snake.grow_mark,
                  score := g.score + 1 }
      else some g) = _
    rw [if_pos hfood, hplace]
    rfl
  refine ⟨fun hfood => ⟨hfeed hfood, hcand⟩, ?_, ?_⟩
  · intro hfood
    unfold Game.feed_snake
    rw [hh]
    show (if head = g.food then
        (g.place_new_food cand fuel).bind fun f =>
          some { g with
                  food := f,
                  snake := g.snake.grow_mark,
                  score := g.score + 1 }
      else some g) = some g
    rw [if_neg hfood]
  · intro hfood
    rw [hfeed hfood]
    show (({ g.snake with grow := true } : Snake).slither).map
        (fun t => t.body.length) = _
    exact slither_grow_true_length g.snake

/-- C5, witnessed on a head sitting on the food `(40,45)` with free
candidate `(33,33)`. -/
theorem c5_feed_witness :
    gameOnFood.feed_snake ⟨33, 33⟩ 1 =
      some { gameOnFood with
              food := ⟨33, 33⟩,
              snake := { gameOnFood.snake with grow := true },
              score := gameOnFood.score + 1 } ∧
    (⟨33, 33⟩ : Point) ∉ gameOnFood.snake.body :=
  (c5_feed gameOnFood ⟨40, 45⟩ rfl ⟨33, 33⟩ 1 (by decide) (by decide)).1 rfl

/-- C6: on a non-empty body, and when the one-cell offset stays within u16
range, `slither` prepends the head offset one cell along the current
direction (Up: y−1, Down: y+1, Left: x−1, Right: x+1); without pending
growth the tail is dropped and the length is unchanged, with pending growth
the tail is kept, the length grows by exactly 1, and the flag is cleared. -/
theorem c6_slither_advance (s : Snake) (head : Point)
    (hh : s.body.head? = some head)
    (hsafe : (s.direction = Direction.Left → 0 < head.x) ∧
             (s.direction = Direction.Up → 0 < head.y) ∧
             (s.direction = Direction.Right → head.x < 65535) ∧
             (s.direction = Direction.Down → head.y < 65535)) :
    s.slither = some { s with
        body := offsetPoint head s.direction ::
          (if s.grow = true then s.body else s.body.dropLast),
        grow := false } ∧
    (s.grow = false →
      s.slither.map (fun t => t.body.length) = some s.body.length) ∧
    (s.grow = true →
      s.slither.map (fun t => t.body.length) = some (s.body.length + 1)) := by
  obtain ⟨body, dir, gr⟩ := s
  cases body with
  | nil => simp at hh
  | cons b t =>
    simp only [List.head?_cons, Option.some.injEq] at hh
    subst hh
    obtain ⟨hl, hu, hr, hd⟩ := hsafe
    cases dir <;> cases gr <;>
      simp_all [Snake.slither, Snake.move_left, Snake.move_right, Snake.move_up,
        Snake.move_down, offsetPoint, Option.some_bind, List.length_dropLast,
        Nat.pos_iff_ne_zero, Nat.ne_of_lt]

/-- C6, witnessed on the initial snake (head `(60,50)`, facing Left). -/
theorem c6_slither_advance_witness :
    Snake.new.slither = some { Snake.new with
        body := offsetPoint ⟨60, 50⟩ Snake.new.direction ::
          (if Snake.new.grow = true then Snake.new.body
           else Snake.new.body.dropLast),
        grow := false } ∧
    (Snake.new.grow = false →
      Snake.new.slither.map (fun t => t.body.length) =
        some Snake.new.body.length) ∧
    (Snake.new.grow = true →
      Snake.new.slither.map (fun t => t.body.length) =
        some (Snake.new.body.length + 1)) :=
  c6_slither_advance Snake.new ⟨60, 50⟩ rfl
    ⟨by decide, by decide, by decide, by decide⟩

/-- C7: a movement action sets the direction to the requested one exactly
when the request is orthogonal to the current direction, and leaves the rest
of the game untouched; a parallel or opposite request changes nothing. -/
theorem c7_turn_only_orthogonal (g : Game) (d : Direction) :
    g.process_keypress (moveAction d) =
      ({ g with snake := { g.snake with direction :=
          (if orthogonal d g.snake.direction then d else g.snake.direction) } },
       true) := by
  obtain ⟨fr, ⟨body, dir, gr⟩, sc, st, fd⟩ := g
  cases d <;> cases dir <;>
    simp [Game.process_keypress, moveAction, orthogonal, Direction.horizontal]

/-- C8: the simulation (movement, collision, feeding) runs before the state
dispatch on every loop iteration — see `Game.run` — so from the initial Menu
state a run of 30 timeout ticks ends in GameOver while every earlier state,
checked exhaustively, is still Menu: Play is never entered. -/
theorem c8_tick_only_run_reaches_gameover_without_play :
    (runTicks 30 Game.new).map Game.state = some GameState.GameOver ∧
    ((List.range 30).all fun m =>
        (runTicks m Game.new).map Game.state == some GameState.Menu) = true := by
  decide

/-- C9: the score starts at 0, every loop iteration leaves it unchanged or
increments it by exactly one (so it is non-decreasing over every run), and
Restart from GameOver replaces the snake and enters Play while leaving the
score untouched. -/
theorem c9_score_monotone (g : Game) :
    Game.new.score = 0 ∧
    (∀ a cand fuel r, g.run a cand fuel = some r →
      r.1.score = g.score ∨ r.1.score = g.score + 1) ∧
    (g.state = GameState.GameOver →
      g.process_keypress Action.Restart =
        ({ g with snake := Snake.new, state := GameState.Play }, true)) := by
  refine ⟨rfl, ?_, ?_⟩
  · intro a cand fuel r h
    unfold Game.run at h
    cases hs : g.snake.slither with
    | none =>
      rw [hs] at h
      have h1 : (none : Option (Game × Bool)) = some r := h
      exact Option.noConfusion h1
    | some s =>
      rw [hs] at h
      have h1 : ((({ g with snake := s } : Game).check_collisions).bind fun g2 =>
          (g2.feed_snake cand fuel).bind fun g3 =>
            some (g3.process_keypress a)) = some r := h
      cases hc : ({ g with snake := s } : Game).check_collisions with
      | none =>
        rw [hc] at h1
        exact Option.noConfusion h1
      | some g2 =>
        rw [hc] at h1
        have h2 : ((g2.feed_snake cand fuel).bind fun g3 =>
            some (g3.process_keypress a)) = some r := h1
        cases hf : g2.feed_snake cand fuel with
        | none =>
          rw [hf] at h2
          exact Option.noConfusion h2
        | some g3 =>
          rw [hf] at h2
          have h3 : some (g3.process_keypress a) = some r := h2
          injection h3 with h4
          have e1 : g2.score = g.score :=
            (check_collisions_only_state _ _ hc).1
          have e2 := feed_snake_score g2 cand fuel g3 hf
          have e3 : r.1.score = g3.score := by
            rw [← h4]
            exact process_keypress_score g3 a
          rw [e3, ← e1]
          exact e2
  · intro hst
    simp [Game.process_keypress, hst]

/-- C9, witnessed on the fresh game after one tick and on Restart from the
concrete game-over state. -/
theorem c9_score_monotone_witness :
    Game.new.score = 0 ∧
    (((Game.new.run Action.Tick ⟨0, 0⟩ 1).getD (Game.new, true)).1.score =
        Game.new.score ∨
      ((Game.new.run Action.Tick ⟨0, 0⟩ 1).getD (Game.new, true)).1.score =
        Game.new.score + 1) ∧
    gameAtGameOver.process_keypress Action.Restart =
      ({ gameAtGameOver with snake := Snake.new, state := GameState.Play },
       true) :=
  ⟨(c9_score_monotone Game.new).1,
   (c9_score_monotone Game.new).2.1 Action.Tick ⟨0, 0⟩ 1
     ((Game.new.run Action.Tick ⟨0, 0⟩ 1).getD (Game.new, true)) (by decide),
   (c9_score_monotone gameAtGameOver).2.2 rfl⟩

/-- C10: after 60 timeout-only ticks from the fresh game the state is
GameOver (reached at tick 30) yet the snake has kept moving: its head sits
at x = 0 still facing Left, and the next `slither` underflows the `u16`
subtraction (modelled as `none`), so tick 61 of the loop fails. -/
theorem c10_underflow_reachable :
    (runTicks 60 Game.new).map
        (fun g => (g.state, g.snake.direction, g.snake.body.head?,
                   g.snake.slither)) =
      some (GameState.GameOver, Direction.Left, some ⟨0, 50⟩, none) ∧
    runTicks 61 Game.new = none := by
  decide

end RustSnake
